import Mathlib

/-!
Shallow embedding of avocado.utils.partition (partition.py).

External commands, the lock, and ambient filesystem state are supplied by an
environment record (`Env`): the embedding records, for each operation, the
trace of external events it performed (`Event`), its outcome
(`Except PErr _`), and the updated `Partition` record.  String handling
follows Python semantics (whitespace `split`, substring `in`, `strip`,
`lstrip`, truthiness of optional strings, `int()` parsing).
-/

namespace Avocado

/-- Errors raised by the embedded code: `PartitionError` with its reason
string, plus the uncaught Python `IndexError` and `ValueError`. -/
inductive PErr where
  | partitionError (reason : String)
  | indexError
  | valueError
deriving DecidableEq, Repr

/-- External events performed by the embedded operations: lock transitions,
file reads, directory creation, and each external command invocation. -/
inductive Event where
  | lockAcquire
  | lockRelease
  | readFile (path : String)
  | makedirs (path : String)
  | cmdListMounts
  | cmdSwapon
  | cmdMkfs (cmd : String)
  | cmdMount (cmd : String)
  | cmdLosetupFind (cmd : String)
  | cmdLosetupDetach (cmd : String)
  | cmdLsof (cmd : String)
  | cmdKill (pid : Int)
  | cmdUmount (cmd : String)
  | cmdUmountForce (cmd : String)
  | cmdUmountLazy (cmd : String)
deriving DecidableEq, Repr

/-- Helper for Python `str.split()`: accumulate the current word (reversed)
while walking the characters. -/
def wordsAux : List Char → List Char → List String
  | [], [] => []
  | [], cur => [String.mk cur.reverse]
  | c :: cs, cur =>
    if c.isWhitespace then
      match cur with
      | [] => wordsAux cs []
      | _ :: _ => String.mk cur.reverse :: wordsAux cs []
    else wordsAux cs (c :: cur)

/-- Python `str.split()` with no separator: split on whitespace runs,
dropping empty tokens. -/
def pySplit (s : String) : List String := wordsAux s.data []

/-- Test whether the first list is an initial segment of the second. -/
def leadsWith : List Char → List Char → Bool
  | [], _ => true
  | _ :: _, [] => false
  | a :: as, b :: bs => a = b && leadsWith as bs

/-- Test whether the first list occurs contiguously inside the second. -/
def hasSub (needle : List Char) : List Char → Bool
  | [] => leadsWith needle []
  | c :: cs => leadsWith needle (c :: cs) || hasSub needle cs

/-- Python substring test `sub in s`. -/
def pyContains (sub s : String) : Bool := hasSub sub.data s.data

/-- Number of positions at which the needle occurs in the haystack. -/
def countSub (needle : List Char) : List Char → Nat
  | [] => if leadsWith needle [] then 1 else 0
  | c :: cs => (if leadsWith needle (c :: cs) then 1 else 0) + countSub needle cs

/-- Number of occurrences of a substring in a string. -/
def pyCount (sub s : String) : Nat := countSub sub.data s.data

/-- Python `s.startswith(t)`. -/
def pyStartsWith (s t : String) : Bool := leadsWith t.data s.data

/-- Python `str.strip()` (whitespace on both ends). -/
def pyStrip (s : String) : String :=
  String.mk (((s.data.dropWhile Char.isWhitespace).reverse.dropWhile Char.isWhitespace).reverse)

/-- Python `str.lstrip()`. -/
def pyLstrip (s : String) : String := String.mk (s.data.dropWhile Char.isWhitespace)

/-- Numeric value of a decimal digit character, if any. -/
def digitVal (c : Char) : Option Nat :=
  if 48 ≤ c.toNat ∧ c.toNat ≤ 57 then some (c.toNat - 48) else none

/-- Read a nonempty run of decimal digits as a natural number. -/
def natOfDigitsAux : List Char → Nat → Option Nat
  | [], acc => some acc
  | c :: cs, acc =>
    match digitVal c with
    | some d => natOfDigitsAux cs (acc * 10 + d)
    | none => none

/-- Python `int(str)` restricted to optional sign and decimal digits with
surrounding whitespace, the only shapes this code ever parses. -/
def pyInt (s : String) : Option Int :=
  match (pyStrip s).data with
  | [] => none
  | c :: cs =>
    if c = '-' then
      match cs with
      | [] => none
      | _ :: _ => (natOfDigitsAux cs 0).map (fun n => -(n : Int))
    else if c = '+' then
      match cs with
      | [] => none
      | _ :: _ => (natOfDigitsAux cs 0).map (fun n => (n : Int))
    else (natOfDigitsAux (c :: cs) 0).map (fun n => (n : Int))

/-- Python truthiness of an optional string: `None` and the empty string are
falsy. -/
def truthy : Option String → Bool
  | none => false
  | some s => s != ""

/-- The Partition record: `device`, `loop` (loop_size), the optional stored
`fstype` and `mountpoint`, and the option strings from the constructor. -/
structure Partition where
  device : String
  loop : Nat
  fstype : Option String
  mountpoint : Option String
  mkfs_flags : String
  mount_options : Option String
deriving DecidableEq, Repr

/-- Outcome of the external `lsof` query: captured output lines, a command
failure (`CmdError`), or an `OSError` while launching it. -/
inductive LsofOutcome where
  | ok (lines : List String)
  | cmdError
  | osError

/-- The environment: contents of the consulted files, output of the listing
commands, and the success or failure of every external command the code may
run.  `realpath` models `os.path.realpath`. -/
structure Env where
  lockOk : Bool
  mountOut : List String
  swaponOut : List String
  procMounts : List String
  etcMtab : List String
  realpath : String → String
  isdir : String → Bool
  losetupResult : Except Unit String
  mountCmdOk : Bool
  mkfsCmdOk : Bool
  umountOk : Bool
  lsofResult : LsofOutcome
  killOk : Int → Bool
  umountForceOk : Bool
  umountLazyOk : Bool
  losetupDetachOk : Bool

/-- Result of an operation on a partition: the trace of external events, the
outcome, and the possibly updated partition record. -/
structure PRes (α : Type) where
  trace : List Event
  out : Except PErr α
  part : Partition

/-- First whitespace field of each line, `line.split()[0]`: IndexError on a
line with no fields. -/
def firstFields : List String → Except PErr (List String)
  | [] => .ok []
  | l :: rest =>
    match pySplit l with
    | [] => .error .indexError
    | f :: _ =>
      match firstFields rest with
      | .error e => .error e
      | .ok fs => .ok (f :: fs)

/-- Third whitespace field of each line, `line.split()[2]`: IndexError on a
line with fewer than three fields. -/
def thirdFields : List String → Except PErr (List String)
  | [] => .ok []
  | l :: rest =>
    match pySplit l with
    | _ :: _ :: c :: _ =>
      match thirdFields rest with
      | .error e => .error e
      | .ok cs => .ok (c :: cs)
    | _ => .error .indexError

/-- Partition.list_mount_devices: first column of the `mount` output plus
first column of the `swapon -s` lines that start with a slash. -/
def list_mount_devices (env : Env) : List Event × Except PErr (List String) :=
  match firstFields env.mountOut with
  | .error e => ([.cmdListMounts], .error e)
  | .ok mountDevs =>
    match firstFields (env.swaponOut.filter (fun l => pyStartsWith l "/")) with
    | .error e => ([.cmdListMounts, .cmdSwapon], .error e)
    | .ok swapDevs => ([.cmdListMounts, .cmdSwapon], .ok (mountDevs ++ swapDevs))

/-- Partition.list_mount_points: third column of the `mount` output. -/
def list_mount_points (env : Env) : List Event × Except PErr (List String) :=
  match thirdFields env.mountOut with
  | .error e => ([.cmdListMounts], .error e)
  | .ok pts => ([.cmdListMounts], .ok pts)

/-- Per-line scan of get_mountpoint over one mount-description file: match
the first field against the device (literally or via realpath), then return
the second field when it equals the stored mountpoint. -/
def scanMounts (p : Partition) (rp : String → String) : List String → Except PErr (Option String)
  | [] => .ok none
  | line :: rest =>
    match pySplit line with
    | [] => .error .indexError
    | d :: restFields =>
      if d == p.device || rp d == rp p.device then
        match restFields with
        | [] => .error .indexError
        | mp :: _ => if some mp = p.mountpoint then .ok (some mp) else scanMounts p rp rest
      else scanMounts p rp rest

/-- Partition.get_mountpoint with an explicit filename: scan that file. -/
def get_mountpoint_at (p : Partition) (rp : String → String) (lines : List String) :
    Except PErr (Option String) :=
  scanMounts p rp lines

/-- Partition.get_mountpoint with no filename: scan /proc/mounts, fall back
to /etc/mtab, keeping the fallback answer only when it is the root path. -/
def get_mountpoint (p : Partition) (env : Env) : List Event × Except PErr (Option String) :=
  match get_mountpoint_at p env.realpath env.procMounts with
  | .error e => ([.readFile "/proc/mounts"], .error e)
  | .ok res =>
    if truthy res then ([.readFile "/proc/mounts"], .ok res)
    else
      match get_mountpoint_at p env.realpath env.etcMtab with
      | .error e => ([.readFile "/proc/mounts", .readFile "/etc/mtab"], .error e)
      | .ok res2 =>
        ([.readFile "/proc/mounts", .readFile "/etc/mtab"],
         .ok (if res2 = some "/" then res2 else none))

/-- Effective mkfs filesystem type: truthy explicit argument, else truthy
stored fstype, else ext2. -/
def resolveFstype (arg stored : Option String) : String :=
  if truthy arg then arg.getD "" else if truthy stored then stored.getD "" else "ext2"

/-- The mkfs argument string before type injection: caller args, then
mkfs_flags, then the xfs/btrfs force flag, then the loop-device force flag
for ext* or reiserfs. -/
def mkfsPreArgs (p : Partition) (fstype args : String) : String :=
  let a1 := if p.mkfs_flags != "" then args ++ " " ++ p.mkfs_flags else args
  let a2 := if fstype == "xfs" || fstype == "btrfs" then a1 ++ " -f" else a1
  if p.loop != 0 then
    if pyStartsWith fstype "ext" then a2 ++ " -F"
    else if fstype == "reiserfs" then a2 ++ " -f"
    else a2
  else a2

/-- Prepend `-t fstype` when the assembled args do not already contain the
substring `-t`, then strip. -/
def mkfsArgs (p : Partition) (fstype args : String) : String :=
  let a := mkfsPreArgs p fstype args
  pyStrip (if pyContains "-t" a then a else "-t " ++ fstype ++ " " ++ a)

/-- Partition.mkfs: refuse devices present in list_mount_devices, resolve
the type, assemble the command, run it, and record fstype on success. -/
def Partition.mkfs (p : Partition) (env : Env) (fstype : Option String) (args : String) :
    PRes Unit :=
  match list_mount_devices env with
  | (t, .error e) => ⟨t, .error e, p⟩
  | (t, .ok devs) =>
    if p.device ∈ devs then
      ⟨t, .error (.partitionError "Unable to format mounted device"), p⟩
    else
      let fst := resolveFstype fstype p.fstype
      let cmd := "yes | mkfs " ++ mkfsArgs p fst args ++ " " ++ p.device
      if env.mkfsCmdOk then ⟨t ++ [.cmdMkfs cmd], .ok (), { p with fstype := some fst }⟩
      else ⟨t ++ [.cmdMkfs cmd], .error (.partitionError "Failed to mkfs"), p⟩

/-- The two pre-mount checks guarded by mnt_check: device already mounted,
then target mountpoint busy. -/
def mountChecks (p : Partition) (env : Env) (mp : String) : List Event × Except PErr Unit :=
  match list_mount_devices env with
  | (t, .error e) => (t, .error e)
  | (t, .ok devs) =>
    if p.device ∈ devs then (t, .error (.partitionError "Attempted to mount mounted device"))
    else
      match list_mount_points env with
      | (t2, .error e) => (t ++ t2, .error e)
      | (t2, .ok pts) =>
        if mp ∈ pts then (t ++ t2, .error (.partitionError "Attempted to mount busy directory"))
        else (t ++ t2, .ok ())

/-- Body of Partition.mount executed while holding the mtab lock: checks,
directory creation, loop setup (which overwrites `device`), mount command. -/
def mountBody (p : Partition) (env : Env) (mp args : String) (mnt_check : Bool) :
    List Event × Except PErr Unit × Partition :=
  match (if mnt_check then mountChecks p env mp else ([], .ok ())) with
  | (tc, .error e) => (tc, .error e, p)
  | (tc, .ok _) =>
    let td := tc ++ (if env.isdir mp then [] else [.makedirs mp])
    if p.loop != 0 then
      match env.losetupResult with
      | .error _ =>
        (td ++ [.cmdLosetupFind ("losetup --find --show -f " ++ p.device)],
         .error (.partitionError "Mount failed"), p)
      | .ok out =>
        let p2 := { p with device := pyStrip out }
        let t2 := td ++ [.cmdLosetupFind ("losetup --find --show -f " ++ p.device)]
        let cmd := "mount " ++ args ++ " " ++ p2.device ++ " " ++ mp
        if env.mountCmdOk then (t2 ++ [.cmdMount cmd], .ok (), p2)
        else (t2 ++ [.cmdMount cmd], .error (.partitionError "Mount failed"), p2)
    else
      let cmd := "mount " ++ args ++ " " ++ p.device ++ " " ++ mp
      if env.mountCmdOk then (td ++ [.cmdMount cmd], .ok (), p)
      else (td ++ [.cmdMount cmd], .error (.partitionError "Mount failed"), p)

/-- Post-body bookkeeping of Partition.mount: bracket the body trace with
the lock acquire and release, and record fstype when the body succeeded. -/
def mountFinish (fst : Option String) (b : List Event × Except PErr Unit × Partition) :
    PRes Unit :=
  ⟨Event.lockAcquire :: b.1 ++ [Event.lockRelease], b.2.1,
   match b.2.1 with
   | .ok _ => { b.2.2 with fstype := fst }
   | .error _ => b.2.2⟩

/-- Partition.mount: resolve the mountpoint and fstype, build the option
string, then run the locked body and record fstype after success. -/
def Partition.mount (p : Partition) (env : Env) (mountpoint fstype : Option String)
    (args : String) (mnt_check : Bool) : PRes Unit :=
  let mp := if truthy mountpoint then mountpoint else p.mountpoint
  if truthy mp then
    let mpS := mp.getD ""
    let fst : Option String := fstype.or p.fstype
    let p1 : Partition := match fstype with | none => p | some f => { p with fstype := some f }
    let a1 := match p.mount_options with
      | none => args
      | some o => if o != "" then args ++ " -o " ++ o else args
    let a2 := if truthy fst then a1 ++ " -t " ++ fst.getD "" else a1
    let a3 := pyLstrip a2
    if env.lockOk then mountFinish fst (mountBody p1 env mpS a3 mnt_check)
    else ⟨[], .error (.partitionError "Unable to obtain /etc/mtab lock in 60s"), p1⟩
  else
    ⟨[], .error (.partitionError
      "No mountpoint specified and no default provided to this partition object"), p⟩

/-- Parse the post-header lsof lines: field 1 of each, as an integer PID. -/
def parsePidLines : List String → Except PErr (List Int)
  | [] => .ok []
  | l :: rest =>
    match pySplit l with
    | _ :: pidField :: _ =>
      match pyInt pidField with
      | some n =>
        match parsePidLines rest with
        | .error e => .error e
        | .ok ns => .ok (n :: ns)
      | none => .error .valueError
    | _ => .error .indexError

/-- Partition._get_pids_on_mountpoint: run lsof on the mountpoint; OSError
and CmdError each become a PartitionError, a captured output is parsed after
dropping the header line. -/
def getPidsOnMountpoint (p : Partition) (env : Env) (mnt : String) :
    List Event × Except PErr (List Int) :=
  match env.lsofResult with
  | .osError =>
    ([.cmdLsof ("lsof " ++ mnt)],
     .error (.partitionError
       ("Could not run lsof to identify processes using \"" ++ mnt ++ "\"")))
  | .cmdError =>
    ([.cmdLsof ("lsof " ++ mnt)],
     .error (.partitionError ("Failure executing \"lsof " ++ mnt ++ "\"")))
  | .ok lines => ([.cmdLsof ("lsof " ++ mnt)], parsePidLines (lines.drop 1))

/-- Kill loop of _unmount_force: `kill -9` each PID in order, turning a kill
command error into a PartitionError. -/
def killLoop (env : Env) : List Int → List Event × Except PErr Unit
  | [] => ([], .ok ())
  | pid :: rest =>
    if env.killOk pid then
      (Event.cmdKill pid :: (killLoop env rest).1, (killLoop env rest).2)
    else ([.cmdKill pid], .error (.partitionError "Failed to kill processes"))

/-- Partition._unmount_force: enumerate and kill the holders, then escalate
from `umount -f` to `umount -l`; only both failing raises. -/
def unmount_force (p : Partition) (env : Env) (mnt : String) :
    List Event × Except PErr Unit :=
  match getPidsOnMountpoint p env mnt with
  | (t, .error e) => (t, .error e)
  | (t, .ok pids) =>
    match killLoop env pids with
    | (tk, .error e) => (t ++ tk, .error e)
    | (tk, .ok _) =>
      let tf := t ++ tk ++ [.cmdUmountForce ("umount -f " ++ mnt)]
      if env.umountForceOk then (tf, .ok ())
      else
        let tl := tf ++ [.cmdUmountLazy ("umount -l " ++ mnt)]
        if env.umountLazyOk then (tl, .ok ())
        else (tl, .error (.partitionError "Force unmount failed"))

/-- The with-MtabLock body of Partition.unmount.  The boolean component is
true when the body returned early because the device is not mounted. -/
def unmountLocked (p : Partition) (env : Env) (force : Bool) :
    List Event × Except PErr (Bool × Nat) :=
  match get_mountpoint p env with
  | (t, .error e) => (t, .error e)
  | (t, .ok mp) =>
    if truthy mp then
      let mnt := mp.getD ""
      let tu := t ++ [.cmdUmount ("umount " ++ mnt)]
      if env.umountOk then (tu, .ok (false, 1))
      else if force then
        match unmount_force p env mnt with
        | (tf, .error e) => (tu ++ tf, .error e)
        | (tf, .ok _) => (tu ++ tf, .ok (false, 2))
      else (tu, .error (.partitionError "Unable to unmount gracefully"))
    else (t, .ok (true, 1))

/-- Partition.unmount: run the locked body, then (only on a normal, not
early, completion) detach the loop device when loop-backed. -/
def Partition.unmount (p : Partition) (env : Env) (force : Bool) : PRes Nat :=
  if env.lockOk then
    let b := unmountLocked p env force
    let base := Event.lockAcquire :: b.1 ++ [Event.lockRelease]
    match b.2 with
    | .error e => ⟨base, .error e, p⟩
    | .ok (early, r) =>
      if early then ⟨base, .ok r, p⟩
      else if p.loop != 0 then
        if env.losetupDetachOk then
          ⟨base ++ [.cmdLosetupDetach ("losetup -d " ++ p.device)], .ok r, p⟩
        else
          ⟨base ++ [.cmdLosetupDetach ("losetup -d " ++ p.device)],
           .error (.partitionError "Unable to cleanup loop device"), p⟩
      else ⟨base, .ok r, p⟩
  else ⟨[], .error (.partitionError "Unable to obtain /etc/mtab lock in 60s"), p⟩

/-- External command events, as opposed to lock transitions, file reads and
directory creation. -/
def Event.isCmd : Event → Bool
  | .lockAcquire => false
  | .lockRelease => false
  | .readFile _ => false
  | .makedirs _ => false
  | _ => true

/-- Lock acquisition and release events. -/
def isLockEvent : Event → Bool
  | .lockAcquire => true
  | .lockRelease => true
  | _ => false

/-- The actual mount command (not the `mount` listing command). -/
def Event.isMountCmd : Event → Bool
  | .cmdMount _ => true
  | _ => false

/-- The mkfs command. -/
def Event.isMkfsCmd : Event → Bool
  | .cmdMkfs _ => true
  | _ => false

/-- Forced or lazy unmount attempts. -/
def Event.isUmountAttempt : Event → Bool
  | .cmdUmountForce _ => true
  | .cmdUmountLazy _ => true
  | _ => false

/-- Events that the body of unmount (inside the lock) can produce: file
reads, the graceful umount, and the forced-recovery commands. -/
def isUnmountBodyEvent : Event → Bool
  | .readFile _ => true
  | .cmdUmount _ => true
  | .cmdLsof _ => true
  | .cmdKill _ => true
  | .cmdUmountForce _ => true
  | .cmdUmountLazy _ => true
  | _ => false

/-- Well-scoped lock usage in a trace: either no lock events at all, or
exactly one acquisition followed by its release. -/
def lockScoped (t : List Event) : Prop :=
  t.filter isLockEvent = [] ∨ t.filter isLockEvent = [Event.lockAcquire, Event.lockRelease]

/-- Fixture: a plain partition with a default mountpoint and no stored
fstype. -/
def pSda : Partition :=
  { device := "/dev/sda1", loop := 0, fstype := none, mountpoint := some "/mnt",
    mkfs_flags := "", mount_options := none }

/-- Fixture: a loop-backed partition. -/
def pLoop : Partition := { pSda with loop := 100 }

/-- Fixture: a partition whose constructor received mkfs_flags that contain
a type flag. -/
def pFlags : Partition := { pSda with device := "/dev/sdb1", mkfs_flags := "-t ext3" }

/-- Fixture environment: lock obtainable, nothing mounted anywhere, every
external command succeeding, identity realpath. -/
def envBase : Env :=
  { lockOk := true
    mountOut := []
    swaponOut := []
    procMounts := []
    etcMtab := []
    realpath := fun s => s
    isdir := fun _ => true
    losetupResult := .ok "/dev/loop0"
    mountCmdOk := true
    mkfsCmdOk := true
    umountOk := true
    lsofResult := .ok []
    killOk := fun _ => true
    umountForceOk := true
    umountLazyOk := true
    losetupDetachOk := true }

/-- Fixture: /dev/sda1 is mounted on /mnt, so its device is in the mounted
device list and /mnt is in the mount point list. -/
def envMounted : Env :=
  { envBase with
    mountOut := ["/dev/sda1 on /mnt type ext4 (rw)"]
    procMounts := ["/dev/sda1 /mnt ext4 rw 0 0"] }

/-- Fixture: some other device is mounted on /mnt, so /mnt is busy while
/dev/sda1 itself is not mounted. -/
def envBusy : Env := { envBase with mountOut := ["/dev/sdz9 on /mnt type ext4 (rw)"] }

/-- Fixture: /dev/sda1 mounted on /mnt, graceful umount failing, lsof
reporting two holder processes, forced umount failing, lazy succeeding. -/
def envForce : Env :=
  { envMounted with
    umountOk := false
    lsofResult := .ok ["COMMAND PID USER", "bash 101 root", "vim 202 root"]
    umountForceOk := false
    umountLazyOk := true }

/-- Fixture: the lsof query itself fails with a command error. -/
def envLsofFail : Env := { envMounted with umountOk := false, lsofResult := .cmdError }

/-- Fixture: the lsof query succeeds but reports only its header line (no
process holds the mount point). -/
def envHdr : Env :=
  { envMounted with umountOk := false, lsofResult := .ok ["COMMAND PID USER"] }

/-- Fixture: the mkfs command fails. -/
def envMkfsFail : Env := { envBase with mkfsCmdOk := false }

/-- Fixture: the mount command fails. -/
def envMountFail : Env := { envBase with mountCmdOk := false }

/-- Fixture: both the mkfs and the mount commands fail. -/
def envAllFail : Env := { envBase with mkfsCmdOk := false, mountCmdOk := false }

/-! Trace-hygiene lemmas: the traces of the inner operations contain no lock
events, so the only lock events of `mount`/`unmount` are the bracketing
acquire and release emitted by the `with MtabLock()` scope. -/

theorem lmd_trace (env : Env) :
    (list_mount_devices env).1 = [Event.cmdListMounts] ∨
    (list_mount_devices env).1 = [Event.cmdListMounts, Event.cmdSwapon] := by
  unfold list_mount_devices
  rcases firstFields env.mountOut with e | ds
  · exact Or.inl rfl
  · rcases firstFields (env.swaponOut.filter fun l => pyStartsWith l "/") with e | ds2
    · exact Or.inr rfl
    · exact Or.inr rfl

theorem lmp_trace (env : Env) : (list_mount_points env).1 = [Event.cmdListMounts] := by
  unfold list_mount_points
  rcases thirdFields env.mountOut with e | pts
  · rfl
  · rfl

theorem gmp_trace (p : Partition) (env : Env) :
    (get_mountpoint p env).1 = [Event.readFile "/proc/mounts"] ∨
    (get_mountpoint p env).1 = [Event.readFile "/proc/mounts", Event.readFile "/etc/mtab"] := by
  unfold get_mountpoint
  rcases get_mountpoint_at p env.realpath env.procMounts with e | res
  · exact Or.inl rfl
  · rcases htr : truthy res with _ | _
    · simp only [htr, Bool.false_eq_true, if_false]
      rcases get_mountpoint_at p env.realpath env.etcMtab with e | res2
      · exact Or.inr rfl
      · exact Or.inr rfl
    · simp only [htr, if_true]
      exact Or.inl (by trivial)

theorem gmp_lock_filter (p : Partition) (env : Env) :
    ((get_mountpoint p env).1).filter isLockEvent = [] := by
  rcases gmp_trace p env with h | h <;> rw [h] <;> rfl

theorem gmp_cmd_filter (p : Partition) (env : Env) :
    ((get_mountpoint p env).1).filter Event.isCmd = [] := by
  rcases gmp_trace p env with h | h <;> rw [h] <;> rfl

theorem mountChecks_lock_filter (p : Partition) (env : Env) (mp : String) :
    ((mountChecks p env mp).1).filter isLockEvent = [] := by
  unfold mountChecks
  rcases h1 : list_mount_devices env with ⟨t, r⟩
  have ht := lmd_trace env
  rw [h1] at ht
  simp only at ht
  rcases r with e | devs
  · rcases ht with h | h <;> subst h <;> rfl
  · by_cases hd : p.device ∈ devs
    · simp only [if_pos hd]
      rcases ht with h | h <;> subst h <;> rfl
    · simp only [if_neg hd]
      rcases h2 : list_mount_points env with ⟨t2, r2⟩
      have ht2 := lmp_trace env
      rw [h2] at ht2
      simp only at ht2
      subst ht2
      rcases r2 with e | pts
      · rcases ht with h | h <;> subst h <;> rfl
      · by_cases hp : mp ∈ pts
        · simp only [if_pos hp]
          rcases ht with h | h <;> subst h <;> rfl
        · simp only [if_neg hp]
          rcases ht with h | h <;> subst h <;> rfl

theorem mountBody_lock_filter (p : Partition) (env : Env) (mp args : String) (c : Bool) :
    ((mountBody p env mp args c).1).filter isLockEvent = [] := by
  have hc : ((if c then mountChecks p env mp else ([], Except.ok ())).1).filter isLockEvent
      = [] := by
    cases c
    · rfl
    · exact mountChecks_lock_filter p env mp
  unfold mountBody
  split
  next tc e heq =>
    rw [heq] at hc
    exact hc
  next tc u heq =>
    rw [heq] at hc
    simp only at hc
    rcases env.losetupResult with e | out <;>
      rcases henv : env.mountCmdOk with _ | _ <;>
      rcases hdir : env.isdir mp with _ | _ <;>
      rcases hloop : p.loop != 0 with _ | _ <;>
      simp [henv, hdir, hloop, List.filter_append, hc, isLockEvent]

theorem killLoop_lock_filter (env : Env) (pids : List Int) :
    ((killLoop env pids).1).filter isLockEvent = [] := by
  induction pids with
  | nil => rfl
  | cons pid rest ih =>
    unfold killLoop
    rcases hk : env.killOk pid with _ | _
    · simp only [hk, Bool.false_eq_true, if_false]
      rfl
    · simp only [hk, if_true, List.filter]
      simpa [isLockEvent] using ih

theorem getPids_lock_filter (p : Partition) (env : Env) (mnt : String) :
    ((getPidsOnMountpoint p env mnt).1).filter isLockEvent = [] := by
  unfold getPidsOnMountpoint
  rcases env.lsofResult with lines | _ | _ <;> rfl

theorem unmount_force_lock_filter (p : Partition) (env : Env) (mnt : String) :
    ((unmount_force p env mnt).1).filter isLockEvent = [] := by
  have ht := getPids_lock_filter p env mnt
  have htk := fun pids => killLoop_lock_filter env pids
  unfold unmount_force
  split
  next t e heq =>
    rw [heq] at ht
    exact ht
  next t pids heq =>
    rw [heq] at ht
    simp only at ht
    split
    next tk e heq2 =>
      have h2 := htk pids
      rw [heq2] at h2
      simp only at h2
      simp [List.filter_append, ht, h2]
    next tk u heq2 =>
      have h2 := htk pids
      rw [heq2] at h2
      simp only at h2
      rcases hf : env.umountForceOk with _ | _ <;>
        rcases hlz : env.umountLazyOk with _ | _ <;>
        simp [hf, hlz, List.filter_append, ht, h2, isLockEvent]

theorem unmountLocked_lock_filter (p : Partition) (env : Env) (force : Bool) :
    ((unmountLocked p env force).1).filter isLockEvent = [] := by
  have ht := gmp_lock_filter p env
  unfold unmountLocked
  split
  next t e heq =>
    rw [heq] at ht
    exact ht
  next t mp heq =>
    rw [heq] at ht
    simp only at ht
    rcases htr : truthy mp with _ | _
    · simp [htr, ht]
    · have htf := unmount_force_lock_filter p env (mp.getD "")
      rcases huf : unmount_force p env (mp.getD "") with ⟨tf, rf⟩
      rw [huf] at htf
      simp only at htf
      rcases hu : env.umountOk with _ | _ <;>
        rcases force with _ | _ <;>
        rcases rf with e | u <;>
        simp [htr, hu, huf, List.filter_append, ht, htf, isLockEvent]

/-- C1: for every call to mount() or unmount(), in every environment (so on
every exit path: normal completion, the early already-unmounted return, and
every raised error), the trace of lock events is well scoped — the lock
acquired at the start of the locked section is always released, and no
operation terminates with the lock still held. -/
theorem mount_unmount_lock_released (p : Partition) (env : Env)
    (mountpoint fstype : Option String) (args : String) (mnt_check force : Bool) :
    lockScoped (Partition.mount p env mountpoint fstype args mnt_check).trace ∧
    lockScoped (Partition.unmount p env force).trace := by
  constructor
  · simp only [Partition.mount, lockScoped]
    rcases htr : truthy (if truthy mountpoint then mountpoint else p.mountpoint) with _ | _
    · simp [htr]
    · rcases hl : env.lockOk with _ | _
      · simp [htr, hl]
      · right
        simp [htr, hl, mountFinish, List.filter_append, mountBody_lock_filter, isLockEvent]
  · simp only [Partition.unmount, lockScoped]
    rcases hl : env.lockOk with _ | _
    · simp [hl]
    · simp only [hl, if_true]
      rcases (unmountLocked p env force).2 with e | ⟨early, r⟩
      · right
        simp [List.filter_append, unmountLocked_lock_filter, isLockEvent]
      · rcases early with _ | _ <;>
          rcases hdet : env.losetupDetachOk with _ | _ <;>
          rcases hlp : p.loop != 0 with _ | _ <;>
          right <;>
          simp [hdet, hlp, List.filter_append, unmountLocked_lock_filter, isLockEvent]

/-! Claim C10: partiality of get_mountpoint over an explicit file. -/

theorem scanMounts_total_aux (p : Partition) (rp : String → String) (lines : List String)
    (h : ∀ l ∈ lines, 2 ≤ (pySplit l).length) :
    ∃ r, scanMounts p rp lines = Except.ok r := by
  induction lines with
  | nil => exact ⟨none, rfl⟩
  | cons l rest ih =>
    obtain ⟨r, hr⟩ := ih (fun x hx => h x (List.mem_cons_of_mem _ hx))
    have hl := h l (List.mem_cons_self _ _)
    unfold scanMounts
    rcases hsp : pySplit l with _ | ⟨d, rest2⟩
    · rw [hsp] at hl
      simp at hl
    · rcases rest2 with _ | ⟨mp, rest3⟩
      · rw [hsp] at hl
        simp at hl
      · simp only [hsp]
        by_cases hd : (d == p.device || rp d == rp p.device) = true
        · by_cases hm : some mp = p.mountpoint
          · exact ⟨some mp, by simp [hd, hm]⟩
          · exact ⟨r, by simp [hd, hm, hr]⟩
        · simp only [Bool.not_eq_true] at hd
          exact ⟨r, by simp [hd, hr]⟩

/-- C10: get_mountpoint over an explicit mount-description file is total on
files whose every line has at least two whitespace-separated fields, while a
blank line, or a one-field line naming the device, makes it raise an
uncaught IndexError instead of returning the mount point or None. -/
theorem get_mountpoint_index_error (p : Partition) (rp : String → String)
    (hdev : pySplit p.device = [p.device]) :
    (∀ lines, (∀ l ∈ lines, 2 ≤ (pySplit l).length) →
        ∃ r, get_mountpoint_at p rp lines = Except.ok r) ∧
    get_mountpoint_at p rp [""] = Except.error PErr.indexError ∧
    get_mountpoint_at p rp [p.device] = Except.error PErr.indexError := by
  refine ⟨fun lines h => scanMounts_total_aux p rp lines h, rfl, ?_⟩
  unfold get_mountpoint_at scanMounts
  simp [hdev]

/-- Witness for C10 at a concrete partition, a concrete well-formed file, a
blank-line file, and a single-field file naming the device. -/
theorem get_mountpoint_index_error_witness :
    (∃ r, get_mountpoint_at pSda (fun s => s) ["/dev/sda1 /mnt ext4 rw 0 0"] = Except.ok r) ∧
    get_mountpoint_at pSda (fun s => s) [""] = Except.error PErr.indexError ∧
    get_mountpoint_at pSda (fun s => s) ["/dev/sda1"] = Except.error PErr.indexError := by
  have h := get_mountpoint_index_error pSda (fun s => s) (by decide)
  refine ⟨h.1 ["/dev/sda1 /mnt ext4 rw 0 0"] ?_, h.2.1, h.2.2⟩
  intro l hl
  simp only [List.mem_singleton] at hl
  subst hl
  decide

/-! Claims C2 and C9: the already-unmounted early return. -/

theorem unmount_early (p : Partition) (env : Env) (force : Bool) (tg : List Event)
    (hl : env.lockOk = true)
    (hg : get_mountpoint p env = (tg, Except.ok none)) :
    Partition.unmount p env force =
      ⟨Event.lockAcquire :: tg ++ [Event.lockRelease], Except.ok 1, p⟩ := by
  have hloc : unmountLocked p env force = (tg, Except.ok (true, 1)) := by
    unfold unmountLocked
    rw [hg]
    rfl
  unfold Partition.unmount
  rw [hl, hloc]
  rfl

/-- C2 (amended): for every partition whose device is absent from the live
mount table (get_mountpoint resolves to None), unmount() with any force
value returns the already-unmounted status 1 — a value the return contract
shares with plain success, the statuses being 1 and 2 — without raising an
error and without issuing any external command beyond reading the mount
table. -/
theorem unmount_absent_noop (p : Partition) (env : Env) (force : Bool) (tg : List Event)
    (hl : env.lockOk = true)
    (hg : get_mountpoint p env = (tg, Except.ok none)) :
    (Partition.unmount p env force).out = Except.ok 1 ∧
    ((Partition.unmount p env force).trace).filter Event.isCmd = [] := by
  have h := unmount_early p env force tg hl hg
  rw [h]
  have hcmd := gmp_cmd_filter p env
  rw [hg] at hcmd
  simp only at hcmd
  exact ⟨rfl, by simp [List.filter_append, hcmd, Event.isCmd]⟩

/-- Witness for C2 at the concrete fixtures: nothing mounted, lock free. -/
theorem unmount_absent_noop_witness :
    (Partition.unmount pSda envBase false).out = Except.ok 1 ∧
    ((Partition.unmount pSda envBase false).trace).filter Event.isCmd = [] :=
  unmount_absent_noop pSda envBase false
    [Event.readFile "/proc/mounts", Event.readFile "/etc/mtab"] rfl rfl

/-- C2 counterexample: the claim calls already-unmounted one of three
distinct contract statuses, but the code returns 1 both for a device absent
from the mount table and for a plain successful unmount of a mounted
device — already-unmounted and plain success are the same value, so the
contract has two distinct statuses, not three. -/
theorem unmount_status_shared :
    (Partition.unmount pSda envBase true).out = Except.ok 1 ∧
    (Partition.unmount pSda envMounted true).out = Except.ok 1 := by
  constructor
  · rfl
  · rfl

theorem getPids_trace (p : Partition) (env : Env) (mnt : String) :
    (getPidsOnMountpoint p env mnt).1 = [Event.cmdLsof ("lsof " ++ mnt)] := by
  unfold getPidsOnMountpoint
  rcases env.lsofResult with lines | _ | _ <;> rfl

theorem killLoop_events (env : Env) (pids : List Int) :
    ∀ e ∈ (killLoop env pids).1, ∃ pid, e = Event.cmdKill pid := by
  induction pids with
  | nil =>
    intro e he
    cases he
  | cons pid rest ih =>
    intro e he
    unfold killLoop at he
    rcases hk : env.killOk pid with _ | _
    · rw [hk] at he
      simp at he
      exact ⟨pid, he⟩
    · rw [hk] at he
      simp at he
      rcases he with h | h
      · exact ⟨pid, h⟩
      · exact ih e h

theorem unmount_force_events (p : Partition) (env : Env) (mnt : String) :
    ∀ e ∈ (unmount_force p env mnt).1, isUnmountBodyEvent e = true := by
  intro e he
  unfold unmount_force at he
  split at he
  next t err heq =>
    have hg := getPids_trace p env mnt
    rw [heq] at hg
    simp only at hg
    subst hg
    simp at he
    subst he
    rfl
  next t pids heq =>
    have hg := getPids_trace p env mnt
    rw [heq] at hg
    simp only at hg
    subst hg
    split at he
    next tk err heq2 =>
      have hk := killLoop_events env pids
      rw [heq2] at hk
      simp only at hk
      simp at he
      rcases he with h | h
      · subst h
        rfl
      · obtain ⟨pid, h2⟩ := hk e h
        subst h2
        rfl
    next tk u heq2 =>
      have hk := killLoop_events env pids
      rw [heq2] at hk
      simp only at hk
      rcases hf : env.umountForceOk with _ | _ <;>
        rcases hlz : env.umountLazyOk with _ | _ <;>
        rw [hf] at he <;>
        simp [hlz] at he <;>
        first
          | (rcases he with h | h | h | h <;>
              first
                | (subst h; rfl)
                | (obtain ⟨pid, h2⟩ := hk e h; subst h2; rfl))
          | (rcases he with h | h | h <;>
              first
                | (subst h; rfl)
                | (obtain ⟨pid, h2⟩ := hk e h; subst h2; rfl))

theorem unmountLocked_events (p : Partition) (env : Env) (force : Bool) :
    ∀ e ∈ (unmountLocked p env force).1, isUnmountBodyEvent e = true := by
  intro e he
  unfold unmountLocked at he
  have hgm : ∀ x ∈ (get_mountpoint p env).1, isUnmountBodyEvent x = true := by
    intro x hx
    rcases gmp_trace p env with h | h <;> rw [h] at hx <;> simp at hx
    · subst hx
      rfl
    · rcases hx with h2 | h2 <;> subst h2 <;> rfl
  split at he
  next t err heq =>
    rw [heq] at hgm
    exact hgm e he
  next t mp heq =>
    rw [heq] at hgm
    simp only at hgm
    rcases htr : truthy mp with _ | _
    · rw [htr] at he
      simp at he
      exact hgm e he
    · rw [htr] at he
      simp only [if_true] at he
      rcases hu : env.umountOk with _ | _
      · rw [hu] at he
        rcases force with _ | _
        · simp at he
          rcases he with h | h
          · exact hgm e h
          · subst h
            rfl
        · simp only [Bool.false_eq_true, if_false, if_true] at he
          split at he
          next tf err heq2 =>
            have hfe := unmount_force_events p env (mp.getD "")
            rw [heq2] at hfe
            simp only at hfe
            simp at he
            rcases he with h | h | h
            · exact hgm e h
            · subst h
              rfl
            · exact hfe e h
          next tf u heq2 =>
            have hfe := unmount_force_events p env (mp.getD "")
            rw [heq2] at hfe
            simp only at hfe
            simp at he
            rcases he with h | h | h
            · exact hgm e h
            · subst h
              rfl
            · exact hfe e h
      · rw [hu] at he
        simp at he
        rcases he with h | h
        · exact hgm e h
        · subst h
          rfl

theorem unmountLocked_normal (p : Partition) (env : Env) (force : Bool) (r : Nat)
    (h : (unmountLocked p env force).2 = Except.ok (false, r)) :
    ∃ mp, (get_mountpoint p env).2 = Except.ok (some mp) ∧ mp ≠ "" := by
  unfold unmountLocked at h
  split at h
  next t err heq =>
    simp at h
  next t mp heq =>
    rcases htr : truthy mp with _ | _
    · rw [htr] at h
      simp at h
    · rcases mp with _ | s
      · rw [truthy] at htr
        cases htr
      · refine ⟨s, by rw [heq], ?_⟩
        have h2 := htr
        rw [truthy] at h2
        simpa using h2

/-- C9: a loop-backed partition whose device is absent from the mount table
takes the early already-unmounted return inside the lock scope — unmount
returns 1 and never issues losetup -d, leaving any attached loop device
attached; and in every run, a detach command appears in the trace only when
the locked body completed normally after resolving a truthy mount point. -/
theorem unmount_loop_no_detach (p : Partition) (env : Env) (force : Bool) (tg : List Event) :
    (p.loop ≠ 0 → env.lockOk = true → get_mountpoint p env = (tg, Except.ok none) →
      (Partition.unmount p env force).out = Except.ok 1 ∧
      ∀ s, Event.cmdLosetupDetach s ∉ (Partition.unmount p env force).trace) ∧
    (∀ s, Event.cmdLosetupDetach s ∈ (Partition.unmount p env force).trace →
      (∃ r, (unmountLocked p env force).2 = Except.ok (false, r)) ∧
      ∃ mp, (get_mountpoint p env).2 = Except.ok (some mp) ∧ mp ≠ "") := by
  constructor
  · intro _ hl hg
    have h := unmount_early p env force tg hl hg
    rw [h]
    refine ⟨rfl, fun s hs => ?_⟩
    have hshape : tg = [Event.readFile "/proc/mounts"] ∨
        tg = [Event.readFile "/proc/mounts", Event.readFile "/etc/mtab"] := by
      have h2 := gmp_trace p env
      rw [hg] at h2
      simpa using h2
    rcases hshape with h2 | h2 <;> subst h2 <;> simp at hs
  · intro s hs
    unfold Partition.unmount at hs
    rcases hl : env.lockOk with _ | _
    · rw [hl] at hs
      simp at hs
    · rw [hl] at hs
      simp only [if_true] at hs
      have hev := unmountLocked_events p env force
      rcases hu : (unmountLocked p env force).2 with err | ⟨early, r⟩
      · rw [hu] at hs
        simp at hs
        have h2 := hev _ hs
        simp [isUnmountBodyEvent] at h2
      · rcases early with _ | _
        · rcases hlp : p.loop != 0 with _ | _
          · rw [hu] at hs
            simp [hlp] at hs
            have h2 := hev _ hs
            simp [isUnmountBodyEvent] at h2
          · exact ⟨⟨r, rfl⟩, unmountLocked_normal p env force r hu⟩
        · rw [hu] at hs
          simp at hs
          have h2 := hev _ hs
          simp [isUnmountBodyEvent] at h2

/-- Witness for C9 at the loop-backed fixture with nothing mounted. -/
theorem unmount_loop_no_detach_witness :
    (Partition.unmount pLoop envBase true).out = Except.ok 1 ∧
    ∀ s, Event.cmdLosetupDetach s ∉ (Partition.unmount pLoop envBase true).trace :=
  (unmount_loop_no_detach pLoop envBase true
      [Event.readFile "/proc/mounts", Event.readFile "/etc/mtab"]).1
    (by decide) rfl rfl

/-! Claim C4: PID enumeration failure versus empty enumeration. -/

/-- C4: during forced-unmount recovery, the PID enumeration raises a
PartitionError — aborting the whole recovery before any unmount attempt —
exactly when the lsof query itself fails (command error or OS error), while
a query that runs and reports no holder lines beyond its header yields the
empty PID list and the recovery proceeds to the unmount attempts. -/
theorem pid_enumeration_failure (p : Partition) (env : Env) (mnt : String) :
    ((env.lsofResult = LsofOutcome.cmdError ∨ env.lsofResult = LsofOutcome.osError) →
      (∃ msg, (unmount_force p env mnt).2 = Except.error (PErr.partitionError msg)) ∧
      ((unmount_force p env mnt).1).filter Event.isUmountAttempt = []) ∧
    (∀ hdr, env.lsofResult = LsofOutcome.ok [hdr] →
      (getPidsOnMountpoint p env mnt).2 = Except.ok [] ∧
      ∃ rest, (unmount_force p env mnt).1 =
        Event.cmdLsof ("lsof " ++ mnt) :: Event.cmdUmountForce ("umount -f " ++ mnt) :: rest) := by
  constructor
  · intro h
    rcases h with h | h
    · have h2 : unmount_force p env mnt = ([Event.cmdLsof ("lsof " ++ mnt)],
          Except.error (PErr.partitionError ("Failure executing \"lsof " ++ mnt ++ "\""))) := by
        unfold unmount_force getPidsOnMountpoint
        rw [h]
      rw [h2]
      exact ⟨⟨_, rfl⟩, rfl⟩
    · have h2 : unmount_force p env mnt = ([Event.cmdLsof ("lsof " ++ mnt)],
          Except.error (PErr.partitionError
            ("Could not run lsof to identify processes using \"" ++ mnt ++ "\""))) := by
        unfold unmount_force getPidsOnMountpoint
        rw [h]
      rw [h2]
      exact ⟨⟨_, rfl⟩, rfl⟩
  · intro hdr h
    have hg : getPidsOnMountpoint p env mnt =
        ([Event.cmdLsof ("lsof " ++ mnt)], Except.ok []) := by
      unfold getPidsOnMountpoint
      rw [h]
      rfl
    refine ⟨by rw [hg], ?_⟩
    rcases hf : env.umountForceOk with _ | _
    · exact ⟨[Event.cmdUmountLazy ("umount -l " ++ mnt)], by
        unfold unmount_force
        rw [hg, hf]
        rcases hlz : env.umountLazyOk with _ | _ <;> rfl⟩
    · exact ⟨[], by
        unfold unmount_force
        rw [hg, hf]
        rfl⟩

/-- Witness for C4: a failing lsof aborts with no unmount attempt, and a
header-only lsof output proceeds straight to the forced unmount. -/
theorem pid_enumeration_failure_witness :
    ((∃ msg, (unmount_force pSda envLsofFail "/mnt").2 =
        Except.error (PErr.partitionError msg)) ∧
      ((unmount_force pSda envLsofFail "/mnt").1).filter Event.isUmountAttempt = []) ∧
    ((getPidsOnMountpoint pSda envHdr "/mnt").2 = Except.ok [] ∧
      ∃ rest, (unmount_force pSda envHdr "/mnt").1 =
        Event.cmdLsof "lsof /mnt" :: Event.cmdUmountForce "umount -f /mnt" :: rest) := by
  constructor
  · exact (pid_enumeration_failure pSda envLsofFail "/mnt").1 (Or.inl rfl)
  · exact (pid_enumeration_failure pSda envHdr "/mnt").2 "COMMAND PID USER" rfl

/-! Claim C3: the graceful-to-forced-to-lazy escalation. -/

theorem unmount_of_locked (p : Partition) (env : Env) (force : Bool) (t : List Event)
    (o : Except PErr (Bool × Nat)) (hl : env.lockOk = true) (hloop : p.loop = 0)
    (h : unmountLocked p env force = (t, o)) (hno : ∀ r, o ≠ Except.ok (true, r)) :
    (Partition.unmount p env force).trace = Event.lockAcquire :: t ++ [Event.lockRelease] ∧
    (Partition.unmount p env force).out = o.map (fun pr => pr.2) := by
  unfold Partition.unmount
  rw [hl, h, hloop]
  rcases o with e | ⟨early, r⟩
  · exact ⟨rfl, rfl⟩
  · rcases early with _ | _
    · exact ⟨rfl, rfl⟩
    · exact absurd rfl (hno r)

theorem killLoop_all_ok (env : Env) (pids : List Int)
    (h : ∀ pid ∈ pids, env.killOk pid = true) :
    killLoop env pids = (pids.map Event.cmdKill, Except.ok ()) := by
  induction pids with
  | nil => rfl
  | cons pid rest ih =>
    unfold killLoop
    rw [h pid (List.mem_cons_self _ _), ih (fun x hx => h x (List.mem_cons_of_mem _ hx))]
    rfl

/-- C3: when the graceful unmount fails and force is enabled, unmount
performs, in order, the lsof enumeration of the PIDs holding the mount
point, a kill signal to each enumerated PID, a forced unmount, and — only
when the forced unmount failed — a lazy unmount; it returns the escalated
status 2 (distinct from plain success 1) when either of the two attempts
succeeds and raises PartitionError "Force unmount failed" only when both
fail. -/
theorem unmount_force_escalation (p : Partition) (env : Env) (mnt : String)
    (tg : List Event) (pids : List Int)
    (hl : env.lockOk = true) (hloop : p.loop = 0)
    (hg : get_mountpoint p env = (tg, Except.ok (some mnt))) (hmnt : mnt ≠ "")
    (hu : env.umountOk = false)
    (hp : getPidsOnMountpoint p env mnt =
      ([Event.cmdLsof ("lsof " ++ mnt)], Except.ok pids))
    (hk : ∀ pid ∈ pids, env.killOk pid = true) :
    (Partition.unmount p env true).trace =
      Event.lockAcquire :: tg ++ [Event.cmdUmount ("umount " ++ mnt),
        Event.cmdLsof ("lsof " ++ mnt)] ++ pids.map Event.cmdKill ++
        [Event.cmdUmountForce ("umount -f " ++ mnt)] ++
        (if env.umountForceOk then [] else [Event.cmdUmountLazy ("umount -l " ++ mnt)]) ++
        [Event.lockRelease] ∧
    (Partition.unmount p env true).out =
      (if env.umountForceOk || env.umountLazyOk then Except.ok 2
       else Except.error (PErr.partitionError "Force unmount failed")) := by
  have htr : truthy (some mnt) = true := by
    simp [truthy, hmnt]
  have hforce : unmount_force p env mnt =
      (Event.cmdLsof ("lsof " ++ mnt) :: (pids.map Event.cmdKill ++
        [Event.cmdUmountForce ("umount -f " ++ mnt)] ++
        (if env.umountForceOk then [] else [Event.cmdUmountLazy ("umount -l " ++ mnt)])),
       if env.umountForceOk || env.umountLazyOk then Except.ok ()
       else Except.error (PErr.partitionError "Force unmount failed")) := by
    unfold unmount_force
    simp only [hp, killLoop_all_ok env pids hk]
    rcases hf : env.umountForceOk with _ | _ <;>
      rcases hlz : env.umountLazyOk with _ | _ <;>
      simp [hf, hlz, List.append_assoc]
  have hloc : unmountLocked p env true =
      ((tg ++ [Event.cmdUmount ("umount " ++ mnt)]) ++ (unmount_force p env mnt).1,
       if env.umountForceOk || env.umountLazyOk then Except.ok (false, 2)
       else Except.error (PErr.partitionError "Force unmount failed")) := by
    unfold unmountLocked
    rw [hg]
    rcases hf : env.umountForceOk with _ | _ <;>
      rcases hlz : env.umountLazyOk with _ | _ <;>
      simp [htr, hu, hf, hlz, hforce, List.append_assoc]
  have hmain := unmount_of_locked p env true _ _ hl hloop hloc (by
    rcases hf : env.umountForceOk with _ | _ <;>
      rcases hlz : env.umountLazyOk with _ | _ <;>
      simp [hf, hlz])
  constructor
  · rw [hmain.1]
    simp [hforce, List.append_assoc]
  · rw [hmain.2]
    rcases hf : env.umountForceOk with _ | _ <;>
      rcases hlz : env.umountLazyOk with _ | _ <;>
      simp [hf, hlz, Except.map]

/-- Witness for C3: two holder processes, forced unmount failing, lazy
unmount succeeding — escalated success with the full ordered trace. -/
theorem unmount_force_escalation_witness :
    (Partition.unmount pSda envForce true).out = Except.ok 2 ∧
    (Partition.unmount pSda envForce true).trace =
      [Event.lockAcquire, Event.readFile "/proc/mounts", Event.cmdUmount "umount /mnt",
       Event.cmdLsof "lsof /mnt", Event.cmdKill 101, Event.cmdKill 202,
       Event.cmdUmountForce "umount -f /mnt", Event.cmdUmountLazy "umount -l /mnt",
       Event.lockRelease] := by
  have h := unmount_force_escalation pSda envForce "/mnt" [Event.readFile "/proc/mounts"]
    [101, 202] rfl rfl rfl (by decide) rfl rfl (by intro pid hp; rfl)
  refine ⟨?_, ?_⟩
  · rw [h.2]
    rfl
  · rw [h.1]
    rfl

/-! Helper lemmas about the mount body and its bookkeeping, shared by the
fstype claims. -/

theorem mountBody_fstype (p : Partition) (env : Env) (mp args : String) (c : Bool) :
    ((mountBody p env mp args c).2.2).fstype = p.fstype := by
  unfold mountBody
  split
  next tc e heq => rfl
  next tc u heq =>
    rcases env.losetupResult with e | out <;>
      rcases henv : env.mountCmdOk with _ | _ <;>
      rcases hdir : env.isdir mp with _ | _ <;>
      rcases hlp : p.loop != 0 with _ | _ <;>
      simp [henv, hdir, hlp]

theorem mountFinish_fstype (fst : Option String) (b : List Event × Except PErr Unit × Partition) :
    ((mountFinish fst b).out = Except.ok () → (mountFinish fst b).part.fstype = fst) ∧
    ((mountFinish fst b).part.fstype = fst ∨ (mountFinish fst b).part = b.2.2) := by
  rcases b with ⟨t, r, q⟩
  rcases r with e | u
  · exact ⟨fun h => by simp [mountFinish] at h, Or.inr rfl⟩
  · exact ⟨fun h => rfl, Or.inl rfl⟩

theorem mkfs_cases (p : Partition) (env : Env) (fstype : Option String) (args : String) :
    ((Partition.mkfs p env fstype args).out = Except.ok () →
      (Partition.mkfs p env fstype args).part =
        { p with fstype := some (resolveFstype fstype p.fstype) }) ∧
    (∀ e, (Partition.mkfs p env fstype args).out = Except.error e →
      (Partition.mkfs p env fstype args).part = p) := by
  unfold Partition.mkfs
  split
  next t e heq =>
    refine ⟨fun h => by simp at h, fun e2 h => rfl⟩
  next t devs heq =>
    by_cases hd : p.device ∈ devs
    · rw [if_pos hd]
      exact ⟨fun h => by simp at h, fun e2 h => rfl⟩
    · rw [if_neg hd]
      rcases hc : env.mkfsCmdOk with _ | _
      · exact ⟨fun h => by simp at h, fun e2 h => rfl⟩
      · exact ⟨fun h => rfl, fun e2 h => by simp at h⟩

theorem mountFinish_body_fstype (p1 : Partition) (env : Env) (mp args : String) (c : Bool)
    (fst : Option String) (hp1 : p1.fstype = fst) :
    (mountFinish fst (mountBody p1 env mp args c)).part.fstype = fst := by
  rcases (mountFinish_fstype fst (mountBody p1 env mp args c)).2 with h | h
  · exact h
  · rw [h, mountBody_fstype, hp1]

theorem mount_fstype_after (p : Partition) (env : Env) (mountpoint fstype : Option String)
    (args : String) (mnt_check : Bool) :
    ((Partition.mount p env mountpoint fstype args mnt_check).out = Except.ok () →
      (Partition.mount p env mountpoint fstype args mnt_check).part.fstype =
        fstype.or p.fstype) ∧
    ((Partition.mount p env mountpoint fstype args mnt_check).part.fstype = p.fstype ∨
      (Partition.mount p env mountpoint fstype args mnt_check).part.fstype =
        fstype.or p.fstype) := by
  simp only [Partition.mount]
  rcases htr : truthy (if truthy mountpoint then mountpoint else p.mountpoint) with _ | _
  · exact ⟨fun h => by simp at h, Or.inl rfl⟩
  · rcases hl : env.lockOk with _ | _
    · rcases fstype with _ | f
      · exact ⟨fun h => by simp at h, Or.inl rfl⟩
      · exact ⟨fun h => by simp at h, Or.inr rfl⟩
    · constructor
      · intro h2
        exact mountFinish_body_fstype _ env _ _ _ _
          (by rcases fstype with _ | f <;> rfl)
      · exact Or.inr (mountFinish_body_fstype _ env _ _ _ _
          (by rcases fstype with _ | f <;> rfl))

theorem mountBody_check_err (p : Partition) (env : Env) (mp args : String)
    (t : List Event) (e : PErr)
    (hch : mountChecks p env mp = (t, Except.error e)) :
    mountBody p env mp args true = (t, Except.error e, p) := by
  unfold mountBody
  simp only [if_true, hch]

/-! Claim C5: mount fstype resolution has no ext2 default. -/

/-- C5 counterexample: for a Partition with no stored fstype, mount() with
no fstype argument succeeds, issues the mount command with no -t flag at
all (the claim promises type ext2), and leaves the stored fstype unset (the
claim promises ext2 recorded). -/
theorem mount_no_default_fstype :
    (Partition.mount pSda envBase none none "" true).out = Except.ok () ∧
    (Partition.mount pSda envBase none none "" true).part.fstype = none ∧
    (Partition.mount pSda envBase none none "" true).trace =
      [Event.lockAcquire, Event.cmdListMounts, Event.cmdSwapon, Event.cmdListMounts,
       Event.cmdMount "mount  /dev/sda1 /mnt", Event.lockRelease] ∧
    pyContains "ext2" "mount  /dev/sda1 /mnt" = false := by
  refine ⟨rfl, rfl, rfl, by decide⟩

/-- C5 (amended): mount() resolves the effective filesystem type as the
explicit argument when one is passed, else the previously recorded fstype,
with no ext2 default (unlike mkfs); after a successful mount it
unconditionally overwrites the stored fstype with that resolved value, so
the stored value can become ext2 only when ext2 was passed or already
stored; with no stored fstype and no argument the mount command carries no
type flag and the stored fstype stays unset. -/
theorem mount_fstype_resolution (p : Partition) (env : Env)
    (mountpoint fstype : Option String) (args : String) (mnt_check : Bool)
    (hok : (Partition.mount p env mountpoint fstype args mnt_check).out = Except.ok ()) :
    (Partition.mount p env mountpoint fstype args mnt_check).part.fstype =
      fstype.or p.fstype ∧
    ((Partition.mount p env mountpoint fstype args mnt_check).part.fstype = some "ext2" →
      fstype = some "ext2" ∨ p.fstype = some "ext2") := by
  have h := (mount_fstype_after p env mountpoint fstype args mnt_check).1 hok
  refine ⟨h, ?_⟩
  rw [h]
  rcases fstype with _ | f
  · exact fun h2 => Or.inr h2
  · exact fun h2 => Or.inl h2

/-- Witness for C5 at a successful concrete mount with an explicit type. -/
theorem mount_fstype_resolution_witness :
    (Partition.mount pSda envBase none (some "ext3") "" true).part.fstype =
      (some "ext3" : Option String).or pSda.fstype ∧
    ((Partition.mount pSda envBase none (some "ext3") "" true).part.fstype = some "ext2" →
      (some "ext3" : Option String) = some "ext2" ∨ pSda.fstype = some "ext2") :=
  mount_fstype_resolution pSda envBase none (some "ext3") "" true rfl

/-! Claim C6: the pre-mount checks and the mkfs check. -/

theorem mount_with_check_err (p : Partition) (env : Env) (mpS : String) (t : List Event)
    (e : PErr) (hl : env.lockOk = true) (hmp : mpS ≠ "")
    (hch : mountChecks p env mpS = (t, Except.error e)) :
    Partition.mount p env (some mpS) none "" true =
      ⟨Event.lockAcquire :: t ++ [Event.lockRelease], Except.error e, p⟩ := by
  have ht2 : truthy (some mpS) = true := by simp [truthy, hmp]
  simp only [Partition.mount, ht2, if_true, hl, Option.getD_some]
  rw [mountBody_check_err _ _ _ _ _ _ hch]
  rfl

/-- C6 counterexample: when the device itself is mounted and the target
mount point is simultaneously busy, mount() with checking enabled raises
the already-mounted error, not the mount-point-busy error that the claim
promises for every busy target mount point. -/
theorem mount_busy_shadowed :
    (Partition.mount pSda envMounted (some "/mnt") none "" true).out =
      Except.error (PErr.partitionError "Attempted to mount mounted device") ∧
    (Partition.mount pSda envMounted (some "/mnt") none "" true).out ≠
      Except.error (PErr.partitionError "Attempted to mount busy directory") := by
  refine ⟨rfl, ?_⟩
  intro h
  have h0 : (Partition.mount pSda envMounted (some "/mnt") none "" true).out =
      Except.error (PErr.partitionError "Attempted to mount mounted device") := rfl
  rw [h0] at h
  injection h with h1
  injection h1 with h2
  exact absurd h2 (by decide)

/-- C6 (amended): with the check flag enabled, a device present in the
mounted-devices list makes mount() fail with the already-mounted error and
mkfs() fail with its already-mounted error, in both cases before the mount
or mkfs command itself is invoked; and a target mount point present in the
mount-point list makes mount() fail with the mount-point-busy error
provided the device itself is not in the mounted-devices list, because the
device check runs first and takes priority. -/
theorem mount_mkfs_check_failures (p : Partition) (env : Env) (mpS : String)
    (fsA : Option String) (argsB : String) (t1 : List Event) (devs : List String)
    (hl : env.lockOk = true) (hmp : mpS ≠ "")
    (h1 : list_mount_devices env = (t1, Except.ok devs)) :
    (p.device ∈ devs →
      (Partition.mount p env (some mpS) none "" true).out =
        Except.error (PErr.partitionError "Attempted to mount mounted device") ∧
      ((Partition.mount p env (some mpS) none "" true).trace).filter Event.isMountCmd = [] ∧
      (Partition.mkfs p env fsA argsB).out =
        Except.error (PErr.partitionError "Unable to format mounted device") ∧
      ((Partition.mkfs p env fsA argsB).trace).filter Event.isMkfsCmd = []) ∧
    (p.device ∉ devs → ∀ t2 pts, list_mount_points env = (t2, Except.ok pts) → mpS ∈ pts →
      (Partition.mount p env (some mpS) none "" true).out =
        Except.error (PErr.partitionError "Attempted to mount busy directory") ∧
      ((Partition.mount p env (some mpS) none "" true).trace).filter
        Event.isMountCmd = []) := by
  have hshape : t1 = [Event.cmdListMounts] ∨ t1 = [Event.cmdListMounts, Event.cmdSwapon] := by
    have h := lmd_trace env
    rw [h1] at h
    simpa using h
  constructor
  · intro hd
    have hch : mountChecks p env mpS =
        (t1, Except.error (PErr.partitionError "Attempted to mount mounted device")) := by
      unfold mountChecks
      simp only [h1]
      rw [if_pos hd]
    have hmnt := mount_with_check_err p env mpS t1 _ hl hmp hch
    have hmk : Partition.mkfs p env fsA argsB =
        ⟨t1, Except.error (PErr.partitionError "Unable to format mounted device"), p⟩ := by
      unfold Partition.mkfs
      simp only [h1]
      rw [if_pos hd]
    rw [hmnt, hmk]
    refine ⟨rfl, ?_, rfl, ?_⟩
    · rcases hshape with h | h <;> subst h <;> rfl
    · rcases hshape with h | h <;> subst h <;> rfl
  · intro hd t2 pts h2 hmem
    have hch : mountChecks p env mpS =
        (t1 ++ t2, Except.error (PErr.partitionError "Attempted to mount busy directory")) := by
      unfold mountChecks
      simp only [h1]
      rw [if_neg hd]
      simp only [h2]
      rw [if_pos hmem]
    have hshape2 : t2 = [Event.cmdListMounts] := by
      have h := lmp_trace env
      rw [h2] at h
      simpa using h
    have hmnt := mount_with_check_err p env mpS (t1 ++ t2) _ hl hmp hch
    rw [hmnt]
    refine ⟨rfl, ?_⟩
    subst hshape2
    rcases hshape with h | h <;> subst h <;> rfl

/-- Witness for C6: the device check firing on a mounted device, and the
busy check firing when another device occupies the target directory. -/
theorem mount_mkfs_check_failures_witness :
    ((Partition.mount pSda envMounted (some "/mnt") none "" true).out =
        Except.error (PErr.partitionError "Attempted to mount mounted device") ∧
      ((Partition.mount pSda envMounted (some "/mnt") none "" true).trace).filter
        Event.isMountCmd = [] ∧
      (Partition.mkfs pSda envMounted none "").out =
        Except.error (PErr.partitionError "Unable to format mounted device") ∧
      ((Partition.mkfs pSda envMounted none "").trace).filter Event.isMkfsCmd = []) ∧
    (Partition.mount pSda envBusy (some "/mnt") none "" true).out =
      Except.error (PErr.partitionError "Attempted to mount busy directory") := by
  constructor
  · exact (mount_mkfs_check_failures pSda envMounted "/mnt" none ""
      [Event.cmdListMounts, Event.cmdSwapon] ["/dev/sda1"] rfl (by decide) rfl).1
      (by decide)
  · exact ((mount_mkfs_check_failures pSda envBusy "/mnt" none ""
      [Event.cmdListMounts, Event.cmdSwapon] ["/dev/sdz9"] rfl (by decide) rfl).2
      (by decide) [Event.cmdListMounts] ["/mnt"] rfl (by decide)).1

/-! Claim C7: assembly of the mkfs command string. -/

/-- C7 counterexample: the type-flag injection does not follow the
caller-supplied args: with constructor mkfs_flags carrying a type flag,
mkfs(args="") yields a command without the resolved type ext2 even though
the caller passed no type flag; and args "--tune" (no type flag, but
containing the substring -t) also suppresses the injection. -/
theorem mkfs_type_injection_refuted :
    (Partition.mkfs pFlags envBase none "").trace =
      [Event.cmdListMounts, Event.cmdSwapon,
       Event.cmdMkfs "yes | mkfs -t ext3 /dev/sdb1"] ∧
    pyContains "ext2" "yes | mkfs -t ext3 /dev/sdb1" = false ∧
    (Partition.mkfs pSda envBase none "--tune").trace =
      [Event.cmdListMounts, Event.cmdSwapon,
       Event.cmdMkfs "yes | mkfs --tune /dev/sda1"] ∧
    pyContains "ext2" "yes | mkfs --tune /dev/sda1" = false := by
  exact ⟨rfl, by decide, rfl, by decide⟩

/-- C7 (amended): mkfs() assembles its command by appending mkfs_flags to
the caller args, then the xfs/btrfs force flag, then the loop-device force
flag for ext*/reiserfs, and prepends "-t fstype" exactly when the string
assembled so far (caller args plus all appended flags) does not contain the
substring "-t"; the example mkfs(args="-t ext4 -b 4096") keeps the caller
flags verbatim with exactly one occurrence of "-t". -/
theorem mkfs_command_assembly (p : Partition) (env : Env) (fstype : Option String)
    (args : String) (t1 : List Event) (devs : List String)
    (h1 : list_mount_devices env = (t1, Except.ok devs)) (hd : p.device ∉ devs) :
    (Partition.mkfs p env fstype args).trace =
      t1 ++ [Event.cmdMkfs ("yes | mkfs " ++
        mkfsArgs p (resolveFstype fstype p.fstype) args ++ " " ++ p.device)] ∧
    (pyContains "-t" (mkfsPreArgs p (resolveFstype fstype p.fstype) args) = false →
      mkfsArgs p (resolveFstype fstype p.fstype) args =
        pyStrip ("-t " ++ resolveFstype fstype p.fstype ++ " " ++
          mkfsPreArgs p (resolveFstype fstype p.fstype) args)) ∧
    (pyContains "-t" (mkfsPreArgs p (resolveFstype fstype p.fstype) args) = true →
      mkfsArgs p (resolveFstype fstype p.fstype) args =
        pyStrip (mkfsPreArgs p (resolveFstype fstype p.fstype) args)) ∧
    pyCount "-t" "yes | mkfs -t ext4 -b 4096 /dev/sda1" = 1 ∧
    (Partition.mkfs pSda envBase none "-t ext4 -b 4096").trace =
      [Event.cmdListMounts, Event.cmdSwapon,
       Event.cmdMkfs "yes | mkfs -t ext4 -b 4096 /dev/sda1"] := by
  refine ⟨?_, ?_, ?_, by decide, rfl⟩
  · unfold Partition.mkfs
    simp only [h1]
    rw [if_neg hd]
    rcases hc : env.mkfsCmdOk with _ | _ <;> rfl
  · intro h
    simp [mkfsArgs, h]
  · intro h
    simp [mkfsArgs, h]

/-- Witness for C7 on an xfs format of an unmounted device: the command
carries both the type flag and the xfs force flag. -/
theorem mkfs_command_assembly_witness :
    (Partition.mkfs pSda envBase (some "xfs") "").trace =
      [Event.cmdListMounts, Event.cmdSwapon] ++ [Event.cmdMkfs ("yes | mkfs " ++
        mkfsArgs pSda (resolveFstype (some "xfs") pSda.fstype) "" ++ " " ++ pSda.device)] ∧
    pyContains "-t xfs" ("yes | mkfs " ++
      mkfsArgs pSda (resolveFstype (some "xfs") pSda.fstype) "" ++ " " ++ pSda.device) = true ∧
    pyContains " -f" ("yes | mkfs " ++
      mkfsArgs pSda (resolveFstype (some "xfs") pSda.fstype) "" ++ " " ++ pSda.device) = true := by
  refine ⟨(mkfs_command_assembly pSda envBase (some "xfs") ""
    [Event.cmdListMounts, Event.cmdSwapon] [] rfl (by decide)).1, by decide, by decide⟩

/-! Claim C8: fstype side effects are never reverted. -/

/-- C8: the stored fstype is updated as a side effect of both mkfs() and
mount() and is never reverted on failure: a failing mkfs leaves fstype
exactly as it was; a failing mount leaves it as it was when no fstype
argument was passed, or equal to the argument (which the call stored before
running any command) when one was; successful calls record the resolved
value. -/
theorem fstype_never_reverted (p : Partition) (env : Env)
    (mountpoint fstype : Option String) (args argsM : String) (mnt_check : Bool) :
    (∀ e, (Partition.mkfs p env fstype args).out = Except.error e →
      (Partition.mkfs p env fstype args).part.fstype = p.fstype) ∧
    ((Partition.mkfs p env fstype args).out = Except.ok () →
      (Partition.mkfs p env fstype args).part.fstype =
        some (resolveFstype fstype p.fstype)) ∧
    (∀ e, (Partition.mount p env mountpoint fstype argsM mnt_check).out = Except.error e →
      (Partition.mount p env mountpoint fstype argsM mnt_check).part.fstype = p.fstype ∨
      (fstype ≠ none ∧
        (Partition.mount p env mountpoint fstype argsM mnt_check).part.fstype = fstype)) ∧
    ((Partition.mount p env mountpoint fstype argsM mnt_check).out = Except.ok () →
      (Partition.mount p env mountpoint fstype argsM mnt_check).part.fstype =
        fstype.or p.fstype) := by
  refine ⟨?_, ?_, ?_, (mount_fstype_after p env mountpoint fstype argsM mnt_check).1⟩
  · intro e he
    rw [(mkfs_cases p env fstype args).2 e he]
  · intro h
    rw [(mkfs_cases p env fstype args).1 h]
  · intro e he
    rcases (mount_fstype_after p env mountpoint fstype argsM mnt_check).2 with h | h
    · exact Or.inl h
    · rcases fstype with _ | f
      · exact Or.inl h
      · exact Or.inr ⟨by simp, h⟩

/-- Witness for C8: a failing mkfs and a failing mount leave the stored
fstype untouched on the fixture partition. -/
theorem fstype_never_reverted_witness :
    (Partition.mkfs pSda envAllFail none "").part.fstype = pSda.fstype ∧
    ((Partition.mount pSda envAllFail none none "" true).part.fstype = pSda.fstype ∨
      ((none : Option String) ≠ none ∧
        (Partition.mount pSda envAllFail none none "" true).part.fstype = none)) := by
  constructor
  · exact (fstype_never_reverted pSda envAllFail none none "" "" true).1
      (PErr.partitionError "Failed to mkfs") rfl
  · exact (fstype_never_reverted pSda envAllFail none none "" "" true).2.2.1
      (PErr.partitionError "Mount failed") rfl

end Avocado
